import Mathlib

/-!
# Verification of the ts_audiotrigger control loops

Shallow embedding of the two control loops of the `ts_audiotrigger`
repository (`laser_alignment_listener.py` and
`read_serial_temp_scanner.py`) together with the GPIO mock
(`mocks.py`), and proofs about the embedded operations.

Numeric values carried by the Python code as floats are modelled as
exact rationals (`ℚ`); machine integers as `Nat`.  Python exceptions
are modelled with `Except String`; every operation additionally
returns the list of externally visible events it produced (relay pin
writes, telemetry messages written to the connected client, and
cooldown sleeps), in the order the source produces them.
-/

namespace AudioTrigger

/-- `constants.MAX_PI_GPIOS`: number of GPIO pins of the mock client. -/
def MAX_PI_GPIOS : Nat := 32

/-- `constants.THRESHOLD`: PSD peak-over-background detection factor. -/
def THRESHOLD : ℚ := 10

/-- `enums.Relay.ON` (relay energised, interlock engaged). -/
def Relay.ON : Nat := 1

/-- `enums.Relay.OFF` (relay released). -/
def Relay.OFF : Nat := 0

/-- `enums.Fan.ON`. -/
def Fan.ON : Nat := 1

/-- `enums.Fan.OFF`. -/
def Fan.OFF : Nat := 0

/-- `LaserAlignmentListener.relay_gpio`: pin 7. -/
def relay_gpio : Nat := 7

/-- `LaserAlignmentListener.count_threshold`: default 7. -/
def count_threshold : Nat := 7

/-- `SerialTemperatureScanner.fan_gpio` (set in `config`): pin 4. -/
def fan_gpio : Nat := 4

/-- `SerialTemperatureScanner.fan_turn_on_temp` (set in `config`): 25. -/
def fan_turn_on_temp : ℚ := 25

/-- The `hysteresis` local of `SerialTemperatureScanner.config`: 2. -/
def hysteresis : ℚ := 2

/-- `SerialTemperatureScanner.fan_turn_off_temp = fan_turn_on_temp - hysteresis`. -/
def fan_turn_off_temp : ℚ := fan_turn_on_temp - hysteresis

/-- State of `mocks.MockPio`: the pin levels (a list of
`MAX_PI_GPIOS` entries, all 0 at construction) and the `connected`
flag. -/
structure Pio where
  gpios : List Nat
  connected : Bool
deriving DecidableEq, Repr

/-- `MockPio.__init__`: all pins 0, connected. -/
def Pio.init : Pio := ⟨List.replicate MAX_PI_GPIOS 0, true⟩

/-- `MockPio.write`: raises `ValueError` when the pin id is out of
range, otherwise stores the level. -/
def Pio.write (p : Pio) (gpio setting : Nat) : Except String Pio :=
  if gpio < MAX_PI_GPIOS then .ok { p with gpios := p.gpios.set gpio setting }
  else .error "ValueError"

/-- `MockPio.read`: raises `ValueError` when the pin id is out of
range, otherwise returns the stored level.  States built from
`Pio.init` by `Pio.write` always keep `MAX_PI_GPIOS` entries, so for
an in-range pin `getD` coincides with the Python list indexing. -/
def Pio.read (p : Pio) (gpio : Nat) : Except String Nat :=
  if gpio < MAX_PI_GPIOS then .ok (p.gpios.getD gpio 0)
  else .error "ValueError"

/-- Telemetry messages written through `write_if_connected`.  The
`raw` variant is the bare string the audio task writes on failure. -/
inductive Msg where
  | setInterruptState (value : String)
  | interruptStatus (value : String)
  | errorMsg (code : Nat) (message : String)
  | setFan (value : String)
  | newTemperature (value : ℚ)
  | raw (s : String)
deriving DecidableEq, Repr

/-- Externally visible effects of an operation, in source order. -/
inductive Event where
  | relayWrite (pin level : Nat)
  | publish (m : Msg)
  | sleepSec (secs : Nat)
deriving DecidableEq, Repr

/-- Result of an embedded operation: the events it emitted (also on
the path leading up to a raised exception) and either the produced
value or the exception. -/
structure Outcome (σ : Type) where
  events : List Event
  result : Except String σ
deriving Repr

/-- Sequencing of embedded operations: events accumulate, a raised
exception aborts the continuation. -/
def Outcome.andThen {σ τ : Type} (o : Outcome σ) (f : σ → Outcome τ) : Outcome τ :=
  match o.result with
  | .error e => ⟨o.events, .error e⟩
  | .ok s =>
    let o2 := f s
    ⟨o.events ++ o2.events, o2.result⟩

/-- State of `LaserAlignmentListener` relevant to the interlock: the
GPIO client, the consecutive-detection counter `count`, and whether a
log client is connected (`log_server.connected`). -/
structure LaserState where
  pio : Pio
  count : Nat
  clientConnected : Bool
deriving DecidableEq, Repr

/-- Fresh listener: `count = 0`, mock GPIO client, one log client. -/
def LaserState.init : LaserState := ⟨Pio.init, 0, true⟩

/-- `LaserAlignmentListener.write_if_connected`: emit the message only
when a client is connected. -/
def laser_publish (s : LaserState) (m : Msg) : List Event :=
  if s.clientConnected then [.publish m] else []

/-- `LaserAlignmentListener.set_relay`: when the GPIO client is not
connected, write an error message (if a log client is connected) and
raise `ValueError`; otherwise write the level to `relay_gpio`. -/
def set_relay (s : LaserState) (setting : Nat) : Outcome LaserState :=
  if s.pio.connected then
    match s.pio.write relay_gpio setting with
    | .ok p => ⟨[.relayWrite relay_gpio setting], .ok { s with pio := p }⟩
    | .error e => ⟨[], .error e⟩
  else
    ⟨laser_publish s (.errorMsg 1 "Not configured properly before actuating relay."),
      .error "ValueError: Not configured properly before actuating relay"⟩

/-- `open_laser_interrupt`: relay to `Relay.OFF`, then validate and
publish `set_interrupt_state = "open"` (the fixed message satisfies
its schema, so validation succeeds). -/
def open_laser_interrupt (s : LaserState) : Outcome LaserState :=
  (set_relay s Relay.OFF).andThen fun s1 =>
    ⟨laser_publish s1 (.setInterruptState "open"), .ok s1⟩

/-- `close_laser_interrupt`: relay to `Relay.ON`, then validate and
publish `set_interrupt_state = "close"`. -/
def close_laser_interrupt (s : LaserState) : Outcome LaserState :=
  (set_relay s Relay.ON).andThen fun s1 =>
    ⟨laser_publish s1 (.setInterruptState "close"), .ok s1⟩

/-- `restart` evaluates `self.set_interrupt_status_validator(msg)`:
it calls the `jsonschema.Draft7Validator` instance itself rather than
its `validate` method.  Validator instances are not callable, so the
call raises `TypeError` unconditionally. -/
def validator_object_call : Except String Unit :=
  .error "TypeError: object is not callable"

/-- `LaserAlignmentListener.restart`: log, build the `reset` message,
run `validator_object_call` inside `try`; the `except Exception`
branch re-raises `Exception("Msg not valid.")`, so the message write
and `open_laser_interrupt` below it are never reached. -/
def restart (s : LaserState) : Outcome LaserState :=
  match validator_object_call with
  | .error _ => ⟨[], .error "Msg not valid."⟩
  | .ok _ =>
    (⟨laser_publish s (.setInterruptState "reset"), .ok s⟩ : Outcome LaserState).andThen
      open_laser_interrupt

/-- Modelled from the spec: the repository's
`schemas/interrupt_status.json`, loaded into
`interrupt_status_validator`, is not under `src/`; spec section 6
gives the schema as `interrupt_status {id: "interrupt_status",
value: "open"|"closed"}`, so validating the message
`{"id": "interrupt_status", "value": value}` succeeds exactly when
`value` is `"open"` or `"closed"`. -/
def interrupt_status_validate (value : String) : Except String Unit :=
  if value = "open" ∨ value = "closed" then .ok ()
  else .error "ValidationError"

/-- `get_relay_status`: read the pin, map level 1 to `"closed"` and 0
to `"opened"` (any other level leaves the message value unbound and
the subsequent use raises `NameError`), validate the
`interrupt_status` message — the `except` clause re-raises any
validation failure as `Exception("msg not valid.")` — then publish it
and return `not pin_value`.  Because the schema admits `"open"` but
the code builds `"opened"`, validation fails for pin level 0. -/
def get_relay_status (s : LaserState) : Outcome (LaserState × Bool) :=
  match s.pio.read relay_gpio with
  | .error e => ⟨[], .error e⟩
  | .ok pin_value =>
    match (match pin_value with
           | 1 => some "closed"
           | 0 => some "opened"
           | _ => none) with
    | none => ⟨[], .error "NameError: value"⟩
    | some value =>
      match interrupt_status_validate value with
      | .error _ => ⟨[], .error "msg not valid."⟩
      | .ok _ =>
        ⟨laser_publish s (.interruptStatus value), .ok (s, pin_value == 0)⟩

/-- `LaserAlignmentListener.handle_interlock`: on a detection with
`count > count_threshold - 1`, close the interrupt, sleep 10 s,
reopen, and reset the counter; on any other detection increment the
counter; on a non-detection reset it. -/
def handle_interlock (s : LaserState) (data_result : Bool) : Outcome LaserState :=
  if data_result && decide (s.count > count_threshold - 1) then
    (close_laser_interrupt s).andThen fun s1 =>
      (⟨[.sleepSec 10], .ok s1⟩ : Outcome LaserState).andThen fun s2 =>
        (open_laser_interrupt s2).andThen fun s3 =>
          ⟨[], .ok { s3 with count := 0 }⟩
  else if data_result then
    ⟨[], .ok { s with count := s.count + 1 }⟩
  else
    ⟨[], .ok { s with count := 0 }⟩

/-- Feeding a sequence of analysis results to `handle_interlock`, as
the audio loop does once per iteration. -/
def run_interlock : LaserState → List Bool → Outcome LaserState
  | s, [] => ⟨[], .ok s⟩
  | s, r :: rs => (handle_interlock s r).andThen fun s1 => run_interlock s1 rs

/-! ## General lemmas about `Outcome` and pin lists -/

theorem Outcome.andThen_ok {σ τ : Type} {o : Outcome σ} {f : σ → Outcome τ} {t : τ}
    (h : (o.andThen f).result = .ok t) :
    ∃ s, o.result = .ok s ∧ (f s).result = .ok t := by
  unfold Outcome.andThen at h
  cases ho : o.result with
  | error e => rw [ho] at h; simp at h
  | ok s => rw [ho] at h; exact ⟨s, rfl, h⟩

theorem getD_set_self {l : List Nat} {i v : Nat} (h : i < l.length) :
    (l.set i v).getD i 0 = v := by
  rw [List.getD_eq_getElem _ _ (by simpa using h)]
  simp [List.getElem_set]

/-! ## Lemmas about the interlock state machine -/

theorem handle_interlock_false (s : LaserState) :
    handle_interlock s false = ⟨[], .ok { s with count := 0 }⟩ := by
  simp [handle_interlock]

theorem handle_interlock_count_le {s : LaserState} {b : Bool} {s' : LaserState}
    (hs : s.count ≤ count_threshold)
    (h : (handle_interlock s b).result = .ok s') : s'.count ≤ count_threshold := by
  cases b with
  | false =>
    rw [handle_interlock_false] at h
    simp only at h
    cases h
    simp [count_threshold]
  | true =>
    unfold handle_interlock at h
    by_cases hc : s.count > count_threshold - 1
    · simp only [hc, decide_eq_true_eq, Bool.true_and, decide_True, if_true] at h
      obtain ⟨s1, h1, h2⟩ := Outcome.andThen_ok h
      obtain ⟨s2, h3, h4⟩ := Outcome.andThen_ok h2
      obtain ⟨s3, h5, h6⟩ := Outcome.andThen_ok h4
      simp only at h6
      cases h6
      simp [count_threshold]
    · simp only [hc, Bool.true_and, decide_False, if_false, decide_eq_true_eq] at h
      simp only [if_true] at h
      cases h
      simp only [count_threshold] at hs hc ⊢
      omega

theorem run_interlock_count_le {s : LaserState} {rs : List Bool} {s' : LaserState}
    (hs : s.count ≤ count_threshold)
    (h : (run_interlock s rs).result = .ok s') : s'.count ≤ count_threshold := by
  induction rs generalizing s with
  | nil =>
    unfold run_interlock at h
    simp only at h
    cases h
    exact hs
  | cons r rs ih =>
    unfold run_interlock at h
    obtain ⟨s1, h1, h2⟩ := Outcome.andThen_ok h
    exact ih (handle_interlock_count_le hs h1) h2

theorem set_relay_ok {s : LaserState} {setting : Nat} {s' : LaserState}
    (h : (set_relay s setting).result = .ok s') :
    s.pio.connected = true ∧
      s' = { s with pio := { s.pio with gpios := s.pio.gpios.set relay_gpio setting } } := by
  unfold set_relay at h
  by_cases hc : s.pio.connected
  · refine ⟨hc, ?_⟩
    simp only [hc, if_true, Pio.write, relay_gpio, MAX_PI_GPIOS] at h
    norm_num at h
    subst h
    simp [relay_gpio, hc]
  · simp [hc] at h

theorem open_laser_interrupt_ok {s s' : LaserState}
    (h : (open_laser_interrupt s).result = .ok s') :
    s.pio.connected = true ∧
      s' = { s with pio := { s.pio with gpios := s.pio.gpios.set relay_gpio Relay.OFF } } := by
  unfold open_laser_interrupt at h
  obtain ⟨s1, h1, h2⟩ := Outcome.andThen_ok h
  obtain ⟨hc, rfl⟩ := set_relay_ok h1
  simp only at h2
  cases h2
  exact ⟨hc, rfl⟩

theorem close_laser_interrupt_ok {s s' : LaserState}
    (h : (close_laser_interrupt s).result = .ok s') :
    s.pio.connected = true ∧
      s' = { s with pio := { s.pio with gpios := s.pio.gpios.set relay_gpio Relay.ON } } := by
  unfold close_laser_interrupt at h
  obtain ⟨s1, h1, h2⟩ := Outcome.andThen_ok h
  obtain ⟨hc, rfl⟩ := set_relay_ok h1
  simp only at h2
  cases h2
  exact ⟨hc, rfl⟩

theorem get_relay_status_read_one {s : LaserState}
    (hread : s.pio.read relay_gpio = .ok 1) :
    (get_relay_status s).result = .ok (s, false) := by
  unfold get_relay_status
  rw [hread]
  rfl

theorem get_relay_status_read_zero {s : LaserState}
    (hread : s.pio.read relay_gpio = .ok 0) :
    (get_relay_status s).result = .error "msg not valid." := by
  unfold get_relay_status
  rw [hread]
  rfl

/-! ## Claim theorems: interlock controller -/

/-- Claim C1 counterexample: starting from `count = 0`, feeding
`handle_interlock` exactly `count_threshold = 7` consecutive
detections produces no event at all — in particular the relay is
never commanded to CLOSED — and merely leaves the counter at 7,
contradicting the claim that the seventh consecutive detection closes
the interlock. -/
theorem C1_counterexample :
    (run_interlock LaserState.init (List.replicate count_threshold true)).events = [] ∧
    (run_interlock LaserState.init (List.replicate count_threshold true)).result =
      .ok { LaserState.init with count := count_threshold } :=
  ⟨by decide, rfl⟩

/-- Claim C1 amended: the trigger condition is `count > count_threshold - 1`
and the counter is incremented only after that test, so it takes
`count_threshold + 1 = 8` consecutive detections to close the
interlock: the eighth detection commands the relay to CLOSED
(level `Relay.ON`), publishes the state, sleeps the 10 s cooldown,
commands it back to OPEN (level `Relay.OFF`), publishes, and resets
the count to 0; any run of at most 7 consecutive detections — in
particular 6 detections followed by a non-detection — never issues a
CLOSED command. -/
theorem C1_amended :
    (run_interlock LaserState.init (List.replicate (count_threshold + 1) true)).events =
      [.relayWrite relay_gpio Relay.ON, .publish (.setInterruptState "close"),
       .sleepSec 10,
       .relayWrite relay_gpio Relay.OFF, .publish (.setInterruptState "open")] ∧
    (run_interlock LaserState.init (List.replicate (count_threshold + 1) true)).result =
      .ok LaserState.init ∧
    ((List.range (count_threshold + 1)).all fun n =>
      (run_interlock LaserState.init (List.replicate n true)).events.all
        fun e => decide (e ≠ .relayWrite relay_gpio Relay.ON)) = true ∧
    (run_interlock LaserState.init (List.replicate 6 true ++ [false])).events = [] :=
  ⟨by decide, rfl, by decide, by decide⟩

/-- Claim C2 (code bug): `restart` calls the validator object instead
of its `validate` method, so it raises `Exception("Msg not valid.")`
on every call, in every state: it never publishes the reset message
and never commands the relay to OPEN, although the GPIO client is
connected. -/
theorem C2_restart_always_raises :
    restart LaserState.init = ⟨[], .error "Msg not valid."⟩ ∧
    ∀ s : LaserState, restart s = ⟨[], .error "Msg not valid."⟩ :=
  ⟨rfl, fun _ => rfl⟩

/-- Claim C6: for every sequence of detection results processed from
`count = 0`, the counter stays within `[0, count_threshold]` after
every step (the lower bound holds because the counter is a natural
number), and a single call with `data_result = false` resets the
counter to 0 from any prior value, with no other effect. -/
theorem C6_hit_count_invariant :
    (∀ (s s' : LaserState) (rs : List Bool), s.count = 0 →
        (run_interlock s rs).result = .ok s' → s'.count ≤ count_threshold) ∧
    (∀ s : LaserState, handle_interlock s false = ⟨[], .ok { s with count := 0 }⟩) :=
  ⟨fun _ _ rs h0 h => run_interlock_count_le (by rw [h0]; exact Nat.zero_le _) h,
   handle_interlock_false⟩

/-- Witness for C6 at concrete inputs: one detection from the initial
state gives `count = 1 ≤ 7`, and a non-detection from `count = 5`
resets to 0. -/
theorem C6_witness :
    (LaserState.init.count = 0 ∧
      (run_interlock LaserState.init [true]).result =
        .ok (⟨Pio.init, 1, true⟩ : LaserState) ∧
      (⟨Pio.init, 1, true⟩ : LaserState).count ≤ count_threshold) ∧
    handle_interlock ⟨Pio.init, 5, true⟩ false =
      ⟨[], .ok (⟨Pio.init, 0, true⟩ : LaserState)⟩ :=
  ⟨⟨rfl, rfl,
      C6_hit_count_invariant.1 LaserState.init ⟨Pio.init, 1, true⟩ [true] rfl rfl⟩,
    C6_hit_count_invariant.2 ⟨Pio.init, 5, true⟩⟩

/-- Claim C10 counterexample: the relay polarity claim fails at the
status read-back after an open.  `get_relay_status` validates its
`interrupt_status` message against the schema (spec section 6:
`value` must be `"open"` or `"closed"`), but builds the value
`"opened"` for pin level 0, so after a successful
`open_laser_interrupt` from the initial state the method raises
`Exception("msg not valid.")` — emitting no event — instead of
returning `true` as claimed. -/
theorem C10_counterexample :
    (open_laser_interrupt LaserState.init).result =
      .ok (⟨⟨(List.replicate 32 0).set 7 0, true⟩, 0, true⟩ : LaserState) ∧
    get_relay_status
        (⟨⟨(List.replicate 32 0).set 7 0, true⟩, 0, true⟩ : LaserState) =
      ⟨[], .error "msg not valid."⟩ :=
  ⟨rfl, rfl⟩

/-- Claim C10 amended: `open_laser_interrupt` writes level 0 and
`close_laser_interrupt` writes level 1 to the relay pin (the first
event each emits).  `get_relay_status` computes `not pin_value`, but
only the level-1 path survives its schema validation (spec-modelled:
`value` must be `"open"` or `"closed"`, and the code builds
`"opened"` for level 0): reading level 1 publishes `"closed"` and
returns `false`, so after a successful close the status is `false`
as claimed; reading level 0 — in particular after a successful open —
raises `Exception("msg not valid.")` instead of returning `true`. -/
theorem C10_amended :
    (∀ s : LaserState, s.pio.connected = true →
        (open_laser_interrupt s).events.head? = some (.relayWrite relay_gpio 0) ∧
        (close_laser_interrupt s).events.head? = some (.relayWrite relay_gpio 1)) ∧
    (∀ s : LaserState, s.pio.read relay_gpio = .ok 1 →
        (get_relay_status s).result = .ok (s, false)) ∧
    (∀ s : LaserState, s.pio.read relay_gpio = .ok 0 →
        (get_relay_status s).result = .error "msg not valid.") ∧
    (∀ s s' : LaserState, s.pio.gpios.length = MAX_PI_GPIOS →
        (open_laser_interrupt s).result = .ok s' →
        (get_relay_status s').result = .error "msg not valid.") ∧
    (∀ s s' : LaserState, s.pio.gpios.length = MAX_PI_GPIOS →
        (close_laser_interrupt s).result = .ok s' →
        (get_relay_status s').result = .ok (s', false)) := by
  refine ⟨fun s hc => ?_, fun s hread => get_relay_status_read_one hread,
    fun s hread => get_relay_status_read_zero hread,
    fun s s' hlen hok => ?_, fun s s' hlen hok => ?_⟩
  · constructor <;>
      simp [open_laser_interrupt, close_laser_interrupt, set_relay, Outcome.andThen,
        Pio.write, relay_gpio, MAX_PI_GPIOS, hc, laser_publish, Relay.ON, Relay.OFF]
  · obtain ⟨hc, rfl⟩ := open_laser_interrupt_ok hok
    have h7 : relay_gpio < s.pio.gpios.length := by rw [hlen]; decide
    have hread : (Pio.read { s.pio with gpios := s.pio.gpios.set relay_gpio Relay.OFF }
        relay_gpio) = .ok Relay.OFF := by
      unfold Pio.read
      rw [if_pos (by decide : relay_gpio < MAX_PI_GPIOS)]
      rw [show ({ s.pio with gpios := s.pio.gpios.set relay_gpio Relay.OFF } : Pio).gpios
            = s.pio.gpios.set relay_gpio Relay.OFF from rfl]
      rw [getD_set_self h7]
    exact get_relay_status_read_zero hread
  · obtain ⟨hc, rfl⟩ := close_laser_interrupt_ok hok
    have h7 : relay_gpio < s.pio.gpios.length := by rw [hlen]; decide
    have hread : (Pio.read { s.pio with gpios := s.pio.gpios.set relay_gpio Relay.ON }
        relay_gpio) = .ok Relay.ON := by
      unfold Pio.read
      rw [if_pos (by decide : relay_gpio < MAX_PI_GPIOS)]
      rw [show ({ s.pio with gpios := s.pio.gpios.set relay_gpio Relay.ON } : Pio).gpios
            = s.pio.gpios.set relay_gpio Relay.ON from rfl]
      rw [getD_set_self h7]
    exact get_relay_status_read_one hread

/-- Witness for the amended C10 at the initial state: opening writes
level 0; a pin at level 1 reads back status `false`; a pin at level 0
(the initial state included) makes the status raise; after a
successful close the status is `false`. -/
theorem C10_witness :
    (LaserState.init.pio.connected = true ∧
      (open_laser_interrupt LaserState.init).events.head? =
        some (.relayWrite relay_gpio 0)) ∧
    (LaserState.init.pio.read relay_gpio = .ok 0 ∧
      (get_relay_status LaserState.init).result = .error "msg not valid.") ∧
    (LaserState.init.pio.gpios.length = MAX_PI_GPIOS ∧
      (open_laser_interrupt LaserState.init).result =
        .ok (⟨⟨(List.replicate 32 0).set 7 0, true⟩, 0, true⟩ : LaserState) ∧
      (get_relay_status
          (⟨⟨(List.replicate 32 0).set 7 0, true⟩, 0, true⟩ : LaserState)).result =
        .error "msg not valid.") ∧
    (LaserState.init.pio.gpios.length = MAX_PI_GPIOS ∧
      (close_laser_interrupt LaserState.init).result =
        .ok (⟨⟨(List.replicate 32 0).set 7 1, true⟩, 0, true⟩ : LaserState) ∧
      (get_relay_status
          (⟨⟨(List.replicate 32 0).set 7 1, true⟩, 0, true⟩ : LaserState)).result =
        .ok ((⟨⟨(List.replicate 32 0).set 7 1, true⟩, 0, true⟩ : LaserState), false)) :=
  ⟨⟨rfl, (C10_amended.1 LaserState.init rfl).1⟩,
   ⟨rfl, C10_amended.2.2.1 LaserState.init rfl⟩,
   ⟨rfl, rfl, C10_amended.2.2.2.1 LaserState.init _ rfl rfl⟩,
   ⟨rfl, rfl, C10_amended.2.2.2.2 LaserState.init _ rfl rfl⟩⟩

/-! ## Serial temperature scanner (`read_serial_temp_scanner.py`) -/

/-- `SerialTemperatureScanner.fan_sensor` (set in `config`). -/
def fan_sensor : String := "Ambient"

/-- State of `SerialTemperatureScanner` relevant to the fan and the
rolling-average window: the GPIO client, whether a telemetry client
is connected (and the scanner is not in simulation mode, in which
case `write_if_connected` returns immediately), the `first_run` flag
and the `rolling_temperature` list. -/
structure ScannerState where
  pio : Pio
  clientConnected : Bool
  firstRun : Bool
  rollingTemperature : List ℚ
deriving DecidableEq, Repr

/-- Scanner as built by `__init__` with `temperature_windows = n`:
`first_run = True`, window of `n` zeros. -/
def init_scanner (n : Nat) : ScannerState := ⟨Pio.init, true, true, List.replicate n 0⟩

/-- `SerialTemperatureScanner.write_if_connected`. -/
def scanner_publish (s : ScannerState) (m : Msg) : List Event :=
  if s.clientConnected then [.publish m] else []

/-- Tail of `set_fan` once the value string is chosen: publish the
`set_fan` message, then write the level to the fan pin. -/
def set_fan_write (s : ScannerState) (value : String) (setting : Nat) :
    Outcome ScannerState :=
  match s.pio.write fan_gpio setting with
  | .ok p =>
    ⟨scanner_publish s (.setFan value) ++ [.relayWrite fan_gpio setting],
      .ok { s with pio := p }⟩
  | .error e => ⟨scanner_publish s (.setFan value), .error e⟩

/-- `SerialTemperatureScanner.set_fan`: raise when the GPIO client is
not connected (after writing an error message); otherwise map the
setting to its value string (raising on an invalid setting), publish
the `set_fan` message, and only then write the pin.  There is no
read-back of the current pin level anywhere. -/
def set_fan (s : ScannerState) (setting : Nat) : Outcome ScannerState :=
  if s.pio.connected then
    if setting = Fan.ON then set_fan_write s "on" setting
    else if setting = Fan.OFF then set_fan_write s "off" setting
    else ⟨[], .error "Value is not valid."⟩
  else
    ⟨scanner_publish s (.errorMsg 1 "Not configured properly actuating fan."),
      .error "ValueError: Not configured properly before actuating fan"⟩

/-- The fan conditional of `handle_data` (lines 264-269): at or above
`fan_turn_on_temp` command ON, strictly below `fan_turn_off_temp`
command OFF, otherwise do nothing. -/
def fan_action (value : ℚ) : Option Nat :=
  if value ≥ fan_turn_on_temp then some Fan.ON
  else if value < fan_turn_off_temp then some Fan.OFF
  else none

/-- The unweighted mean over all channels computed by `handle_data`
(`new_temperature`). -/
def mean_of (nd : List (String × ℚ)) : ℚ :=
  (nd.map Prod.snd).sum / (nd.length : ℚ)

/-- The shift loop of `handle_data`
(`for i in range(len - 1, 0, -1): w[i] = w[i - 1]`): every entry
takes the value previously one position closer to the head; the head
entry is left in place (it is overwritten afterwards). -/
def shift_down (w : List ℚ) : List ℚ :=
  match w with
  | [] => []
  | x :: _ => x :: w.dropLast

/-- `SerialTemperatureScanner.handle_data` over already-numeric
readings (the designated channel's value converts with `float`; a
missing designated key is logged and then raises `KeyError` at the
threshold comparison): run the fan conditional, compute the mean of
all channels, fill the whole window with it on the first run or shift
the window otherwise, publish the mean, and store it at position 0
(an empty window raises `IndexError` there). -/
def handle_data (s : ScannerState) (nd : List (String × ℚ)) : Outcome ScannerState :=
  match nd.lookup fan_sensor with
  | none => ⟨[], .error "KeyError"⟩
  | some value =>
    (match fan_action value with
      | some setting => set_fan s setting
      | none => ⟨[], .ok s⟩).andThen fun s1 =>
      let new_temperature := mean_of nd
      let s2 :=
        if s1.firstRun then
          { s1 with firstRun := false,
                    rollingTemperature :=
                      s1.rollingTemperature.map fun _ => new_temperature }
        else
          { s1 with rollingTemperature := shift_down s1.rollingTemperature }
      if s2.rollingTemperature.isEmpty then
        ⟨scanner_publish s2 (.newTemperature new_temperature), .error "IndexError"⟩
      else
        ⟨scanner_publish s2 (.newTemperature new_temperature),
          .ok { s2 with
                rollingTemperature :=
                  s2.rollingTemperature.set 0 new_temperature }⟩

/-- Feeding a sequence of parsed frames to `handle_data`, as the
serial loop does once per iteration. -/
def run_handle : ScannerState → List (List (String × ℚ)) → Outcome ScannerState
  | s, [] => ⟨[], .ok s⟩
  | s, nd :: rest => (handle_data s nd).andThen fun s1 => run_handle s1 rest

/-! ## Frame parsing (`get_data`) -/

/-- `SerialTemperatureScanner.sensor_dict` (set in `config`). -/
def sensor_dict : List (String × String) :=
  [("C01", "Ambient"), ("C02", "Laser"), ("C03", "FC"), ("C04", "A"),
   ("C05", "B"), ("C06", "C"), ("C07", "D"), ("C08", "E")]

/-- Python dict assignment `latest_data[label] = reading`: replace the
value when the key is present, append it otherwise. -/
def dict_set (d : List (String × String)) (k v : String) : List (String × String) :=
  if d.any fun kv => kv.1 == k then d.map fun kv => if kv.1 == k then (k, v) else kv
  else d ++ [(k, v)]

/-- Python `str.split` with a single-character separator, over the
character list of the string: always at least one part, empty parts
kept. -/
def py_split (sep : Char) : List Char → List (List Char)
  | [] => [[]]
  | c :: rest =>
    match py_split sep rest with
    | p :: ps => if c = sep then [] :: p :: ps else (c :: p) :: ps
    | [] => if c = sep then [[], []] else [[c]]

/-- The body of the per-token loop of `get_data`: split the token on
`"="`; a split that does not produce exactly the two unpacked parts
raises `ValueError`, an id absent from `sensor_dict` raises
`KeyError`, and both are swallowed by the inner `except: pass`, which
makes the token a no-op; otherwise the reading string is stored
verbatim — there is no numeric validation of the value part. -/
def process_token (latest : List (String × String)) (tok : List Char) :
    List (String × String) :=
  match py_split '=' tok with
  | [sensor_location, sensor_reading] =>
    match sensor_dict.lookup (String.mk sensor_location) with
    | some label => dict_set latest label (String.mk sensor_reading)
    | none => latest
  | _ => latest

/-- The per-line loop of `get_data` over the selected frame line:
fold the token handler over the comma-separated tokens.  This is a
total function: the inner `try/except pass` means no exception
escapes the parse. -/
def process_line (latest : List (String × String)) (line : List Char) :
    List (String × String) :=
  (py_split ',' line).foldl process_token latest

/-! ## Loop skeletons (`laser_alignment_task`, `serial_temperature_task`)

A loop body iteration is abstracted by its outcome: `none` when the
iteration body completed, `some e` when it raised exception `e`.  A
finite list of such outcomes describes the behaviour of the first so
many body iterations; the functions below count how many of them the
task actually executes and which events its exception handling emits
(modelled with a connected telemetry client). -/

/-- `laser_alignment_task` is `try: while True: body` with the
`except` OUTSIDE the loop: iterations run until the first raising
one, whose exception escapes the `while`, is caught once at the task
level, and the task returns — later iterations never run. -/
def laser_task_iterations : List (Option String) → Nat
  | [] => 0
  | none :: rest => 1 + laser_task_iterations rest
  | some _ :: _ => 1

/-- The telemetry the audio task writes when its loop dies: the bare
exception string, once. -/
def laser_task_events : List (Option String) → List Event
  | [] => []
  | none :: rest => laser_task_events rest
  | some e :: _ => [.publish (.raw ("LI: Exception: Main task excepted: " ++ e))]

/-- `serial_temperature_task` is `while True: (try: body except:
publish error + log); sleep(sample_wait_time)`: every available
iteration executes, raising or not. -/
def serial_task_iterations : List (Option String) → Nat
  | [] => 0
  | _ :: rest => 1 + serial_task_iterations rest

/-- Events of the serial loop skeleton: each raising iteration
publishes an error message with code 4, and every iteration — raising
or not — is followed by the configured wait. -/
def serial_task_events (wait : Nat) : List (Option String) → List Event
  | [] => []
  | none :: rest => .sleepSec wait :: serial_task_events wait rest
  | some e :: rest =>
    .publish (.errorMsg 4 ("Task had an exception " ++ e)) ::
      .sleepSec wait :: serial_task_events wait rest

/-! ## Claim theorems: fan controller and frame parser -/

theorem Outcome.events_andThen_ok {σ τ : Type} {o : Outcome σ} {f : σ → Outcome τ}
    {s : σ} (h : o.result = .ok s) :
    (o.andThen f).events = o.events ++ (f s).events := by
  unfold Outcome.andThen
  rw [h]

/-- Claim C3 counterexample: the configured thresholds are
`fan_turn_on_temp = 25` and `fan_turn_off_temp = 23`; a reading of
exactly 23 satisfies the claim's `v ≤ fan_turn_off_temp`, so the
claim requires an OFF command, but `handle_data` (which compares with
strict `<` for the OFF branch) issues no fan command at all: the only
event is the rolling-mean telemetry, and the relay pins are
untouched. -/
theorem C3_counterexample :
    fan_turn_off_temp = 23 ∧
    (handle_data ⟨Pio.init, true, false, List.replicate 8 0⟩
        [("Ambient", (23 : ℚ))]).events = [.publish (.newTemperature 23)] ∧
    (handle_data ⟨Pio.init, true, false, List.replicate 8 0⟩
        [("Ambient", (23 : ℚ))]).result =
      .ok (⟨Pio.init, true, false, 23 :: List.replicate 7 0⟩ : ScannerState) := by
  refine ⟨by norm_num [fan_turn_off_temp, fan_turn_on_temp, hysteresis], ?_, ?_⟩ <;>
    · simp [handle_data, fan_action, fan_turn_on_temp, fan_turn_off_temp, hysteresis,
        List.lookup, fan_sensor, mean_of, scanner_publish, shift_down, Outcome.andThen]
      norm_num
      simp [List.replicate]

/-- Claim C3 amended: the OFF comparison is strict: `handle_data`
commands ON when `v ≥ fan_turn_on_temp`, commands OFF when
`v < fan_turn_off_temp` (not `≤`), and leaves the fan untouched on
the half-open band `fan_turn_off_temp ≤ v < fan_turn_on_temp`; when
it commands, the `set_fan` publish and the relay write appear at the
head of the emitted events. -/
theorem C3_amended :
    (∀ v : ℚ, fan_turn_on_temp ≤ v → fan_action v = some Fan.ON) ∧
    (∀ v : ℚ, v < fan_turn_off_temp → fan_action v = some Fan.OFF) ∧
    (∀ v : ℚ, fan_turn_off_temp ≤ v → v < fan_turn_on_temp → fan_action v = none) ∧
    (∀ (s : ScannerState) (v : ℚ), s.pio.connected = true → fan_turn_on_temp ≤ v →
        (scanner_publish s (.setFan "on") ++ [.relayWrite fan_gpio Fan.ON]) <+:
          (handle_data s [(fan_sensor, v)]).events) ∧
    (∀ (s : ScannerState) (v : ℚ), s.pio.connected = true → v < fan_turn_off_temp →
        (scanner_publish s (.setFan "off") ++ [.relayWrite fan_gpio Fan.OFF]) <+:
          (handle_data s [(fan_sensor, v)]).events) ∧
    (∀ (s : ScannerState) (v : ℚ), fan_turn_off_temp ≤ v → v < fan_turn_on_temp →
        ((handle_data s [(fan_sensor, v)]).events.all fun e =>
            match e with | .relayWrite _ _ => false | _ => true) = true ∧
        (∀ s', (handle_data s [(fan_sensor, v)]).result = .ok s' → s'.pio = s.pio)) := by
  have hON : ∀ v : ℚ, fan_turn_on_temp ≤ v → fan_action v = some Fan.ON := by
    intro v h
    simp [fan_action, h]
  have hOFF : ∀ v : ℚ, v < fan_turn_off_temp → fan_action v = some Fan.OFF := by
    intro v h
    have h2 : ¬ v ≥ fan_turn_on_temp := by
      simp only [fan_turn_off_temp, fan_turn_on_temp, hysteresis] at h ⊢
      push_neg
      linarith
    simp [fan_action, h, h2]
  have hNONE : ∀ v : ℚ, fan_turn_off_temp ≤ v → v < fan_turn_on_temp →
      fan_action v = none := by
    intro v h1 h2
    simp [fan_action, not_le.mpr h2, not_lt.mpr h1]
  refine ⟨hON, hOFF, hNONE, ?_, ?_, ?_⟩
  · intro s v hc hv
    unfold handle_data
    simp only [List.lookup, beq_self_eq_true, hON v hv]
    rw [Outcome.events_andThen_ok (s :=
      { s with pio := { s.pio with gpios := s.pio.gpios.set fan_gpio Fan.ON } })]
    · rw [show (set_fan s Fan.ON).events =
          scanner_publish s (.setFan "on") ++ [.relayWrite fan_gpio Fan.ON] by
        simp [set_fan, set_fan_write, hc, Pio.write, fan_gpio, MAX_PI_GPIOS, Fan.ON]]
      exact List.prefix_append _ _
    · simp [set_fan, set_fan_write, hc, Pio.write, fan_gpio, MAX_PI_GPIOS, Fan.ON]
  · intro s v hc hv
    unfold handle_data
    simp only [List.lookup, beq_self_eq_true, hOFF v hv]
    rw [Outcome.events_andThen_ok (s :=
      { s with pio := { s.pio with gpios := s.pio.gpios.set fan_gpio Fan.OFF } })]
    · rw [show (set_fan s Fan.OFF).events =
          scanner_publish s (.setFan "off") ++ [.relayWrite fan_gpio Fan.OFF] by
        simp [set_fan, set_fan_write, hc, Pio.write, fan_gpio, MAX_PI_GPIOS, Fan.ON, Fan.OFF]]
      exact List.prefix_append _ _
    · simp [set_fan, set_fan_write, hc, Pio.write, fan_gpio, MAX_PI_GPIOS, Fan.ON, Fan.OFF]
  · intro s v h1 h2
    unfold handle_data
    simp only [List.lookup, beq_self_eq_true, hNONE v h1 h2]
    constructor
    · simp only [Outcome.andThen]
      split <;> split <;> cases hcc : s.clientConnected <;>
        simp [scanner_publish, hcc]
    · intro s' h
      simp only [Outcome.andThen] at h
      split at h <;> split at h <;> cases h <;> rfl

/-- Witness for the amended C3 at the boundary values 25, 22, 23 and
at a concrete ON command from the freshly configured scanner. -/
theorem C3_witness :
    (fan_turn_on_temp ≤ (25 : ℚ) ∧ fan_action 25 = some Fan.ON) ∧
    ((22 : ℚ) < fan_turn_off_temp ∧ fan_action 22 = some Fan.OFF) ∧
    (fan_turn_off_temp ≤ (23 : ℚ) ∧ (23 : ℚ) < fan_turn_on_temp ∧
      fan_action 23 = none) ∧
    ((init_scanner 8).pio.connected = true ∧ fan_turn_on_temp ≤ (25 : ℚ) ∧
      (scanner_publish (init_scanner 8) (.setFan "on") ++
          [.relayWrite fan_gpio Fan.ON]) <+:
        (handle_data (init_scanner 8) [(fan_sensor, 25)]).events) := by
  have h1 : fan_turn_on_temp ≤ (25 : ℚ) := by norm_num [fan_turn_on_temp]
  have h2 : (22 : ℚ) < fan_turn_off_temp := by
    norm_num [fan_turn_off_temp, fan_turn_on_temp, hysteresis]
  have h3a : fan_turn_off_temp ≤ (23 : ℚ) := by
    norm_num [fan_turn_off_temp, fan_turn_on_temp, hysteresis]
  have h3b : (23 : ℚ) < fan_turn_on_temp := by norm_num [fan_turn_on_temp]
  exact ⟨⟨h1, C3_amended.1 25 h1⟩, ⟨h2, C3_amended.2.1 22 h2⟩,
    ⟨h3a, h3b, C3_amended.2.2.1 23 h3a h3b⟩,
    ⟨rfl, h1, C3_amended.2.2.2.1 (init_scanner 8) 25 rfl h1⟩⟩

/-- Claim C4 counterexample: parsing the spec's example line
`C01=20.1,C02=BAD,C03=21.0` from stored values for all three channels
updates C02's channel (Laser) to the literal string `"BAD"` — the
claimed skip of tokens whose value part is not numeric does not
happen, because `get_data` stores the value string without any
numeric parse. -/
theorem C4_counterexample :
    process_line [("Ambient", "20.0"), ("Laser", "19.5"), ("FC", "21.5")]
        ("C01=20.1,C02=BAD,C03=21.0".data) =
      [("Ambient", "20.1"), ("Laser", "BAD"), ("FC", "21.0")] := by decide

/-- Claim C4 amended: a token is skipped only when it does not split
into exactly two parts on `"="` or when its channel id is not in
`sensor_dict`; a token that does split is stored verbatim, with no
numeric validation of the value part (so `C02=BAD` updates the Laser
channel to `"BAD"`), while the other tokens of the same line are
still applied; the parse is a total function — the per-token
`try/except pass` means no exception escapes. -/
theorem C4_amended :
    process_line [("Ambient", "20.0"), ("Laser", "19.5"), ("FC", "21.5")]
        ("C01=20.1,C02=BAD,C03=21.0".data) =
      [("Ambient", "20.1"), ("Laser", "BAD"), ("FC", "21.0")] ∧
    process_line [("Ambient", "20.0"), ("Laser", "19.5"), ("FC", "21.5")]
        ("C01=20.1,garbage,C99=7,C02=a=b,C03=21.0".data) =
      [("Ambient", "20.1"), ("Laser", "19.5"), ("FC", "21.0")] ∧
    (∀ (latest : List (String × String)) (tok : List Char),
        (py_split '=' tok).length ≠ 2 → process_token latest tok = latest) ∧
    (∀ (latest : List (String × String)) (tok : List Char) (a b : List Char),
        py_split '=' tok = [a, b] → sensor_dict.lookup (String.mk a) = none →
        process_token latest tok = latest) := by
  refine ⟨by decide, by decide, ?_, ?_⟩
  · intro latest tok hlen
    unfold process_token
    rcases h : py_split '=' tok with _ | ⟨a, _ | ⟨b, _ | ⟨c, l⟩⟩⟩ <;> simp_all
  · intro latest tok a b hsplit hlook
    unfold process_token
    rw [hsplit]
    simp [hlook]

/-- Witness for the amended C4: a token with no `"="` and a token
with an unknown channel id are both no-ops. -/
theorem C4_witness :
    ((py_split '=' ("garbage".data)).length ≠ 2 ∧
      process_token [("Ambient", "20.0")] ("garbage".data) = [("Ambient", "20.0")]) ∧
    (py_split '=' ("C99=7".data) = ["C99".data, "7".data] ∧
      sensor_dict.lookup (String.mk ("C99".data)) = none ∧
      process_token [("Ambient", "20.0")] ("C99=7".data) = [("Ambient", "20.0")]) :=
  ⟨⟨by decide, C4_amended.2.2.1 [("Ambient", "20.0")] ("garbage".data) (by decide)⟩,
   ⟨by decide, by decide,
     C4_amended.2.2.2 [("Ambient", "20.0")] ("C99=7".data) ("C99".data) ("7".data)
       (by decide) (by decide)⟩⟩

/-- Claim C8 counterexample: with the fan pin already at level
`Fan.ON`, commanding `set_fan` with `Fan.ON` still publishes the
`set_fan` telemetry message and still writes the relay — and the
publish comes FIRST: there is no read-back of the current relay
state, no suppression of the redundant write, and the claimed
write-before-publish order is reversed. -/
theorem C8_counterexample :
    (Pio.read ⟨(List.replicate MAX_PI_GPIOS 0).set fan_gpio Fan.ON, true⟩ fan_gpio) =
      .ok Fan.ON ∧
    (set_fan ⟨⟨(List.replicate MAX_PI_GPIOS 0).set fan_gpio Fan.ON, true⟩,
        true, false, []⟩ Fan.ON).events =
      [.publish (.setFan "on"), .relayWrite fan_gpio Fan.ON] :=
  ⟨rfl, by decide⟩

/-- Claim C8 amended: `set_fan` performs no read-back of the relay
state: whenever the GPIO client is connected and the setting is valid
it unconditionally publishes the `set_fan` message and then — after
the publish, not before — writes the relay pin, regardless of the
pin's current level. -/
theorem C8_amended :
    ∀ (s : ScannerState) (setting : Nat), s.pio.connected = true →
      setting = Fan.ON ∨ setting = Fan.OFF →
      set_fan s setting =
        ⟨scanner_publish s
            (.setFan (if setting = Fan.ON then "on" else "off")) ++
            [.relayWrite fan_gpio setting],
          .ok { s with pio :=
                { s.pio with gpios := s.pio.gpios.set fan_gpio setting } }⟩ := by
  rintro s setting hc (rfl | rfl) <;>
    simp [set_fan, set_fan_write, hc, Pio.write, fan_gpio, MAX_PI_GPIOS, Fan.ON, Fan.OFF]

/-- Witness for the amended C8 at the freshly configured scanner,
commanding ON. -/
theorem C8_witness :
    (init_scanner 8).pio.connected = true ∧
    (Fan.ON = Fan.ON ∨ Fan.ON = Fan.OFF) ∧
    set_fan (init_scanner 8) Fan.ON =
      ⟨scanner_publish (init_scanner 8)
          (.setFan (if Fan.ON = Fan.ON then "on" else "off")) ++
          [.relayWrite fan_gpio Fan.ON],
        .ok { init_scanner 8 with pio :=
              { (init_scanner 8).pio with
                gpios := (init_scanner 8).pio.gpios.set fan_gpio Fan.ON } }⟩ :=
  ⟨rfl, Or.inl rfl, C8_amended (init_scanner 8) Fan.ON rfl (Or.inl rfl)⟩

/-! ## Lemmas about the rolling-average window -/

theorem set_fan_ok {s : ScannerState} {setting : Nat} {s' : ScannerState}
    (h : (set_fan s setting).result = .ok s') :
    s'.firstRun = s.firstRun ∧ s'.rollingTemperature = s.rollingTemperature ∧
    s'.clientConnected = s.clientConnected ∧ s'.pio.connected = s.pio.connected := by
  unfold set_fan set_fan_write at h
  by_cases hc : s.pio.connected = true
  · rw [if_pos hc] at h
    by_cases h1 : setting = Fan.ON
    · rw [if_pos h1] at h
      simp only [Pio.write, fan_gpio, MAX_PI_GPIOS] at h
      norm_num at h
      subst h
      exact ⟨rfl, rfl, rfl, rfl⟩
    · rw [if_neg h1] at h
      by_cases h2 : setting = Fan.OFF
      · rw [if_pos h2] at h
        simp only [Pio.write, fan_gpio, MAX_PI_GPIOS] at h
        norm_num at h
        subst h
        exact ⟨rfl, rfl, rfl, rfl⟩
      · rw [if_neg h2] at h
        simp at h
  · rw [if_neg hc] at h
    simp at h

theorem shift_set_eq {w : List ℚ} (hw : w ≠ []) (m : ℚ) :
    (shift_down w).set 0 m = m :: w.dropLast := by
  cases w with
  | nil => exact absurd rfl hw
  | cons x t => rfl

theorem map_const_set (w : List ℚ) (m : ℚ) :
    (w.map fun _ => m).set 0 m = List.replicate w.length m := by
  cases w with
  | nil => rfl
  | cons x t => simp [List.replicate, List.map_const']

theorem handle_data_ok {s : ScannerState} {nd : List (String × ℚ)} {s' : ScannerState}
    (h : (handle_data s nd).result = .ok s') :
    s'.firstRun = false ∧
    s.rollingTemperature ≠ [] ∧
    s'.rollingTemperature =
      (if s.firstRun = true then
        List.replicate s.rollingTemperature.length (mean_of nd)
       else mean_of nd :: s.rollingTemperature.dropLast) ∧
    s'.clientConnected = s.clientConnected ∧ s'.pio.connected = s.pio.connected := by
  unfold handle_data at h
  cases hl : nd.lookup fan_sensor with
  | none => rw [hl] at h; exact Except.noConfusion h
  | some v =>
    rw [hl] at h
    simp only at h
    obtain ⟨s1, h1, h2⟩ := Outcome.andThen_ok h
    have hs1 : s1.firstRun = s.firstRun ∧ s1.rollingTemperature = s.rollingTemperature ∧
        s1.clientConnected = s.clientConnected ∧
        s1.pio.connected = s.pio.connected := by
      cases ha : fan_action v with
      | none =>
        rw [ha] at h1
        simp only at h1
        cases h1
        exact ⟨rfl, rfl, rfl, rfl⟩
      | some f =>
        rw [ha] at h1
        exact set_fan_ok h1
    obtain ⟨e1, e2, e3, e4⟩ := hs1
    by_cases hfr : s1.firstRun = true
    · rw [if_pos hfr] at h2
      by_cases he : (s1.rollingTemperature.map
          fun _ => mean_of nd).isEmpty = true
      · rw [if_pos he] at h2
        simp at h2
      · rw [if_neg he] at h2
        simp only at h2
        cases h2
        have hne : s.rollingTemperature ≠ [] := by
          rw [← e2]
          intro hnil
          simp [hnil] at he
        refine ⟨rfl, hne, ?_, e3, e4⟩
        rw [if_pos (by rw [← e1]; exact hfr)]
        simp only [map_const_set, e2]
    · rw [if_neg hfr] at h2
      by_cases he : (shift_down s1.rollingTemperature).isEmpty = true
      · rw [if_pos he] at h2
        simp at h2
      · rw [if_neg he] at h2
        simp only at h2
        cases h2
        have hne1 : s1.rollingTemperature ≠ [] := by
          intro hnil
          simp [hnil, shift_down] at he
        have hne : s.rollingTemperature ≠ [] := by rw [← e2]; exact hne1
        refine ⟨by simpa using hfr, hne, ?_, e3, e4⟩
        rw [if_neg (by rw [← e1]; exact hfr)]
        rw [shift_set_eq hne1, e2]

theorem take_dropLast_eq_take {α : Type} (w : List α) (k : Nat)
    (hk : k ≤ w.length - 1) : (w.dropLast).take k = w.take k := by
  rw [List.dropLast_eq_take, List.take_take]
  congr 1
  omega

theorem take_append_dropLast {α : Type} (A w : List α) (n : Nat)
    (h1 : 1 ≤ A.length) (hn : n ≤ w.length) :
    (A ++ w.dropLast).take n = (A ++ w).take n := by
  rw [List.take_append_eq_append_take, List.take_append_eq_append_take]
  congr 1
  apply take_dropLast_eq_take
  omega

theorem run_handle_window {frames : List (List (String × ℚ))} {s s' : ScannerState}
    (hfr : s.firstRun = false)
    (h : (run_handle s frames).result = .ok s') :
    s'.rollingTemperature =
      ((frames.map mean_of).reverse ++ s.rollingTemperature).take
        s.rollingTemperature.length ∧
    s'.firstRun = false := by
  induction frames generalizing s with
  | nil =>
    unfold run_handle at h
    simp only at h
    cases h
    simp [hfr]
  | cons nd rest ih =>
    unfold run_handle at h
    obtain ⟨s1, h1, h2⟩ := Outcome.andThen_ok h
    obtain ⟨hfr1, hne, hwin, -, -⟩ := handle_data_ok h1
    rw [if_neg (by rw [hfr]; exact Bool.false_ne_true)] at hwin
    obtain ⟨ih1, ih2⟩ := ih hfr1 h2
    refine ⟨?_, ih2⟩
    have hlen1 : s1.rollingTemperature.length = s.rollingTemperature.length := by
      rw [hwin]
      simp only [List.length_cons, List.length_dropLast]
      have := List.length_pos.mpr hne
      omega
    have hsplit : (List.map mean_of (nd :: rest)).reverse =
        (rest.map mean_of).reverse ++ [mean_of nd] := by simp
    rw [ih1, hlen1, hwin, hsplit]
    rw [show (List.map mean_of rest).reverse ++
          mean_of nd :: s.rollingTemperature.dropLast =
          ((List.map mean_of rest).reverse ++ [mean_of nd]) ++
            s.rollingTemperature.dropLast by simp]
    exact take_append_dropLast _ _ _ (by simp) le_rfl

/-- Claim C9: the rolling window keeps its length `N` across every
update; a first-run update fills the whole window with the computed
mean; a subsequent update shifts every entry one position toward the
tail (discarding the oldest) and writes the new mean at position 0;
and running `K ≥ N` frames from the freshly constructed scanner
leaves the window equal to the last `N` computed means in reverse
chronological order. -/
theorem C9_rolling_window :
    (∀ (s : ScannerState) (nd : List (String × ℚ)) (s' : ScannerState),
        (handle_data s nd).result = .ok s' →
        s'.rollingTemperature.length = s.rollingTemperature.length) ∧
    (∀ (s : ScannerState) (nd : List (String × ℚ)) (s' : ScannerState),
        s.firstRun = true → (handle_data s nd).result = .ok s' →
        s'.rollingTemperature =
          List.replicate s.rollingTemperature.length (mean_of nd)) ∧
    (∀ (s : ScannerState) (nd : List (String × ℚ)) (s' : ScannerState),
        s.firstRun = false → (handle_data s nd).result = .ok s' →
        s'.rollingTemperature = mean_of nd :: s.rollingTemperature.dropLast) ∧
    (∀ (n : Nat) (frames : List (List (String × ℚ))) (s' : ScannerState),
        0 < n → n ≤ frames.length →
        (run_handle (init_scanner n) frames).result = .ok s' →
        s'.rollingTemperature = ((frames.map mean_of).reverse).take n) := by
  have hlen : ∀ (s : ScannerState) (nd : List (String × ℚ)) (s' : ScannerState),
      (handle_data s nd).result = .ok s' →
      s'.rollingTemperature.length = s.rollingTemperature.length := by
    intro s nd s' h
    obtain ⟨-, hne, hwin, -, -⟩ := handle_data_ok h
    rw [hwin]
    split
    · simp
    · simp only [List.length_cons, List.length_dropLast]
      have := List.length_pos.mpr hne
      omega
  refine ⟨hlen, ?_, ?_, ?_⟩
  · intro s nd s' hfr h
    obtain ⟨-, -, hwin, -, -⟩ := handle_data_ok h
    rw [hwin, if_pos hfr]
  · intro s nd s' hfr h
    obtain ⟨-, -, hwin, -, -⟩ := handle_data_ok h
    rw [hwin, if_neg (by rw [hfr]; exact Bool.false_ne_true)]
  · intro n frames s' hn hK h
    cases frames with
    | nil => simp at hK; omega
    | cons nd rest =>
      unfold run_handle at h
      obtain ⟨s1, h1, h2⟩ := Outcome.andThen_ok h
      obtain ⟨hfr1, -, hwin1, -, -⟩ := handle_data_ok h1
      rw [if_pos (show (init_scanner n).firstRun = true from rfl)] at hwin1
      have hwlen : (init_scanner n).rollingTemperature.length = n := by
        simp [init_scanner]
      rw [hwlen] at hwin1
      obtain ⟨ihw, -⟩ := run_handle_window hfr1 h2
      rw [hwin1] at ihw
      simp only [List.length_replicate] at ihw
      rw [ihw]
      have hsplit : (List.map mean_of (nd :: rest)).reverse =
          (rest.map mean_of).reverse ++ [mean_of nd] := by simp
      rw [hsplit]
      rw [List.take_append_eq_append_take, List.take_append_eq_append_take]
      congr 1
      simp only [List.length_reverse, List.length_map]
      simp only [List.length_cons] at hK
      rcases Nat.lt_or_ge rest.length n with hlt | hge
      · have hk1 : n - rest.length = 1 := by omega
        rw [hk1, List.take_replicate]
        have hmin : min 1 n = 1 := by omega
        rw [hmin]
        rfl
      · have hk0 : n - rest.length = 0 := by omega
        rw [hk0]
        simp

/-- Witness for C9: three frames through a window of length 2 leave
the window holding the last two means, newest first. -/
theorem C9_witness :
    (0 : Nat) < 2 ∧
    (2 : Nat) ≤ ([[("Ambient", (23 : ℚ))], [("Ambient", 24)], [("Ambient", 23)]] :
        List (List (String × ℚ))).length ∧
    (run_handle (init_scanner 2)
        [[("Ambient", (23 : ℚ))], [("Ambient", 24)], [("Ambient", 23)]]).result =
      .ok (⟨Pio.init, true, false, [23, 24]⟩ : ScannerState) ∧
    (⟨Pio.init, true, false, [23, 24]⟩ : ScannerState).rollingTemperature =
      (([[("Ambient", (23 : ℚ))], [("Ambient", 24)], [("Ambient", 23)]].map
          mean_of).reverse).take 2 := by
  have h3 : (run_handle (init_scanner 2)
      [[("Ambient", (23 : ℚ))], [("Ambient", 24)], [("Ambient", 23)]]).result =
        .ok (⟨Pio.init, true, false, [23, 24]⟩ : ScannerState) := by
    norm_num [run_handle, handle_data, Outcome.andThen, fan_action, fan_sensor,
      List.lookup, mean_of, scanner_publish, shift_down, init_scanner,
      fan_turn_on_temp, fan_turn_off_temp, hysteresis, List.replicate]
  exact ⟨by decide, by decide, h3,
    C9_rolling_window.2.2.2 2
      [[("Ambient", (23 : ℚ))], [("Ambient", 24)], [("Ambient", 23)]]
      _ (by decide) (by decide) h3⟩

/-! ## Claim theorems: loop failure handling -/

/-- Claim C5 counterexample: given two available iterations whose
first raises, the serial loop executes both (its `try/except` is
inside `while True`), but the audio loop executes only the first —
its `try/except` wraps the whole `while True`, so the exception ends
the loop and the second iteration never runs, contradicting the claim
that both loops proceed to their next iteration after an exception. -/
theorem C5_counterexample :
    laser_task_iterations [some "RuntimeError", none] = 1 ∧
    serial_task_iterations [some "RuntimeError", none] = 2 :=
  ⟨rfl, rfl⟩

/-- Claim C5 amended: the serial loop executes every available
iteration, publishing an error message and then waiting after a
raising one; the audio loop executes iterations only up to and
including the first raising one — that exception is caught once at
the task boundary, the bare exception string is written as telemetry,
and the task terminates; only when no iteration raises does the audio
loop keep running (and explicit cancellation is then the only way to
stop it). -/
theorem C5_amended :
    (∀ outs : List (Option String), serial_task_iterations outs = outs.length) ∧
    (∀ (wait : Nat) (e : String) (rest : List (Option String)),
        serial_task_events wait (some e :: rest) =
          .publish (.errorMsg 4 ("Task had an exception " ++ e)) ::
            .sleepSec wait :: serial_task_events wait rest) ∧
    (∀ outs : List (Option String), (∀ o ∈ outs, o = none) →
        laser_task_iterations outs = outs.length) ∧
    (∀ (good : List (Option String)) (e : String) (rest : List (Option String)),
        (∀ o ∈ good, o = none) →
        laser_task_iterations (good ++ some e :: rest) = good.length + 1 ∧
        laser_task_events (good ++ some e :: rest) =
          [.publish (.raw ("LI: Exception: Main task excepted: " ++ e))]) := by
  refine ⟨?_, fun _ _ _ => rfl, ?_, ?_⟩
  · intro outs
    induction outs with
    | nil => rfl
    | cons o rest ih => simp [serial_task_iterations, ih, Nat.add_comm]
  · intro outs h
    induction outs with
    | nil => rfl
    | cons o rest ih =>
      have ho : o = none := h o (List.mem_cons_self o rest)
      subst ho
      have := ih fun o' ho' => h o' (List.mem_cons_of_mem _ ho')
      simp [laser_task_iterations, this, Nat.add_comm]
  · intro good e rest h
    induction good with
    | nil => exact ⟨rfl, rfl⟩
    | cons g gs ih =>
      have hg : g = none := h g (List.mem_cons_self g gs)
      subst hg
      obtain ⟨ih1, ih2⟩ := ih fun o' ho' => h o' (List.mem_cons_of_mem _ ho')
      constructor
      · simp only [List.cons_append, laser_task_iterations, List.length_cons,
          List.append_eq]
        rw [ih1]
        omega
      · simpa [laser_task_events] using ih2

/-- Witness for the amended C5: two clean iterations keep the audio
loop running; one clean iteration followed by a raising one stops it
after two executed iterations and a single telemetry write. -/
theorem C5_witness :
    ((∀ o ∈ ([none, none] : List (Option String)), o = none) ∧
      laser_task_iterations [none, none] = 2) ∧
    ((∀ o ∈ ([none] : List (Option String)), o = none) ∧
      laser_task_iterations ([none] ++ some "boom" :: [none]) = 2 ∧
      laser_task_events ([none] ++ some "boom" :: [none]) =
        [.publish (.raw ("LI: Exception: Main task excepted: " ++ "boom"))]) :=
  ⟨⟨by decide, C5_amended.2.2.1 [none, none] (by decide)⟩,
   ⟨by decide,
     (C5_amended.2.2.2 [none] "boom" [none] (by decide)).1,
     (C5_amended.2.2.2 [none] "boom" [none] (by decide)).2⟩⟩

/-! ## Spectral analyzer (`analyze_data`)

The numeric pipeline of `analyze_data` is modelled over exact
rationals.  The discrete Fourier transform itself (`scipy.fftpack.fft`,
a float computation over complex numbers) is abstracted as a
parameter `dftF` producing complex values with rational components;
every theorem below holds for an arbitrary length-preserving `dftF`,
which is the property the real transform has. -/

/-- A complex value with rational real and imaginary parts. -/
structure CpxQ where
  re : ℚ
  im : ℚ
deriving DecidableEq, Repr

/-- Squared magnitude `|z|^2` (exact, no square root needed because
`analyze_data` squares the absolute value). -/
def CpxQ.normSq (z : CpxQ) : ℚ := z.re * z.re + z.im * z.im

/-- The odd-length guard of `analyze_data`: drop the last sample when
the buffer length is odd. -/
def evenize (a : List ℚ) : List ℚ :=
  if a.length % 2 ≠ 0 then a.dropLast else a

/-- `np.linspace lo hi num` with endpoint: `lo + (hi - lo) * i / (num - 1)`. -/
def linspace (lo hi : ℚ) : Nat → List ℚ
  | 0 => []
  | 1 => [lo]
  | Nat.succ (Nat.succ n) =>
    (List.range (n + 2)).map fun i => lo + (hi - lo) * i / (n + 1)

/-- Insertion into a sorted list, for the median. -/
def insert_sorted (x : ℚ) : List ℚ → List ℚ
  | [] => [x]
  | y :: ys => if x ≤ y then x :: y :: ys else y :: insert_sorted x ys

/-- Insertion sort, ascending. -/
def sort_asc (xs : List ℚ) : List ℚ := xs.foldr insert_sorted []

/-- `np.median`: middle element of the sorted list for odd length,
mean of the two middle elements for even length; `none` for the empty
list (where numpy produces NaN, and any NaN comparison is false). -/
def np_median (xs : List ℚ) : Option ℚ :=
  let n := xs.length
  if n = 0 then none
  else
    let sorted := sort_asc xs
    if n % 2 = 1 then sorted.get? (n / 2)
    else
      match sorted.get? (n / 2 - 1), sorted.get? (n / 2) with
      | some a, some b => some ((a + b) / 2)
      | _, _ => none

/-- The body of `analyze_data`'s `try` block: drop the last sample of
an odd buffer, keep the first half of the transform, compute
`psd[k] = |(2/N) X[k]|^2` against the frequency grid
`linspace 0 (fs/2) (N//2)`, take the maximum PSD strictly inside
995–1005 Hz and the median PSD strictly inside 950–1050 Hz, and
compare.  `none` marks the places where the Python raises: `1.0/fs`
with `fs = 0`, `2.0/N` with `N = 0`, and `np.max` of an empty
selection; `np.median` of an empty selection yields NaN, whose
comparison is false, hence `some false`. -/
def analyze_core (dftF : List ℚ → List CpxQ) (data : List ℚ) (fs : ℚ) :
    Option Bool :=
  let a := evenize data
  let N := a.length
  if fs = 0 then none
  else if N = 0 then none
  else
    let yf := (dftF a).take (N / 2)
    let xf := linspace 0 (fs / 2) (N / 2)
    let psd := yf.map fun z => (2 / (N : ℚ)) ^ 2 * z.normSq
    let pairs := xf.zip psd
    let peak_band := (pairs.filter fun p => decide (995 < p.1 ∧ p.1 < 1005)).map Prod.snd
    let bkg_band := (pairs.filter fun p => decide (950 < p.1 ∧ p.1 < 1050)).map Prod.snd
    match peak_band.max? with
    | none => none
    | some psd_at_1kHz =>
      match np_median bkg_band with
      | none => some false
      | some bkg => some (decide (psd_at_1kHz > THRESHOLD * bkg))

/-- `LaserAlignmentListener.analyze_data`: the `except` clause turns
any raised exception into `False`. -/
def analyze_data (dftF : List ℚ → List CpxQ) (data : List ℚ) (fs : ℚ) : Bool :=
  (analyze_core dftF data fs).getD false

/-- Modelled from the claim's wording: the PSD values
`psd[k] = |(2/N) X[k]|^2` of the first half of the DFT of the
(evenized) buffer whose frequencies lie strictly inside `(lo, hi)`. -/
def band_psd (dftF : List ℚ → List CpxQ) (data : List ℚ) (fs lo hi : ℚ) :
    List ℚ :=
  let a := evenize data
  let N := a.length
  let psd := ((dftF a).take (N / 2)).map fun z => (2 / (N : ℚ)) ^ 2 * z.normSq
  let freqs := linspace 0 (fs / 2) (N / 2)
  ((freqs.zip psd).filter fun p => decide (lo < p.1 ∧ p.1 < hi)).map Prod.snd

theorem linspace_zero_mem {M : Nat} {x : ℚ} (h : x ∈ linspace 0 0 M) : x = 0 := by
  match M with
  | 0 => simp [linspace] at h
  | 1 => simpa [linspace] using h
  | Nat.succ (Nat.succ n) =>
    simp only [linspace, List.mem_map] at h
    obtain ⟨i, -, hi⟩ := h
    simp at hi
    exact hi.symm

theorem band_psd_fs_zero (dftF : List ℚ → List CpxQ) (data : List ℚ)
    (lo hi : ℚ) (hlo : 0 ≤ lo) : band_psd dftF data 0 lo hi = [] := by
  unfold band_psd
  rw [List.map_eq_nil_iff]
  rw [List.filter_eq_nil_iff]
  intro p hp
  have hfst := (List.of_mem_zip hp).1
  rw [show (0 : ℚ) / 2 = 0 by norm_num] at hfst
  have := linspace_zero_mem hfst
  simp only [decide_eq_true_eq, not_and]
  intro hcon
  rw [this] at hcon
  exact absurd (lt_of_le_of_lt hlo hcon) (lt_irrefl 0)

theorem band_psd_len_zero (dftF : List ℚ → List CpxQ) (data : List ℚ)
    (fs lo hi : ℚ) (hN : (evenize data).length = 0) :
    band_psd dftF data fs lo hi = [] := by
  simp [band_psd, hN, linspace]

theorem analyze_core_eq (dftF : List ℚ → List CpxQ) (data : List ℚ) (fs : ℚ)
    (hfs : ¬ fs = 0) (hN : ¬ (evenize data).length = 0) :
    analyze_core dftF data fs =
      match (band_psd dftF data fs 995 1005).max? with
      | none => none
      | some peak =>
        match np_median (band_psd dftF data fs 950 1050) with
        | none => some false
        | some bkg => some (decide (peak > THRESHOLD * bkg)) := by
  unfold analyze_core band_psd
  rw [if_neg hfs, if_neg hN]

/-- Claim C7: for every length-preserving transform, `analyze_data`
returns `true` iff the maximum PSD over the 995–1005 Hz band strictly
exceeds `THRESHOLD` (= 10) times the median PSD over the 950–1050 Hz
band, computed from the first half of the DFT of the buffer with
`psd[k] = |(2/N) X[k]|^2` after dropping the last sample of an
odd-length buffer; and whenever the computation raises
(`analyze_core` is `none`), the `except` clause returns `false`
instead of propagating. -/
theorem C7_analyze_data :
    ∀ (dftF : List ℚ → List CpxQ) (data : List ℚ) (fs : ℚ),
      (dftF (evenize data)).length = (evenize data).length →
      ((analyze_data dftF data fs = true ↔
          ∃ peak bkg,
            (band_psd dftF data fs 995 1005).max? = some peak ∧
            np_median (band_psd dftF data fs 950 1050) = some bkg ∧
            peak > THRESHOLD * bkg) ∧
        (analyze_core dftF data fs = none →
          analyze_data dftF data fs = false)) := by
  intro dftF data fs hlen
  refine ⟨?_, fun h => by simp [analyze_data, h]⟩
  by_cases hfs : fs = 0
  · subst hfs
    have hc : analyze_core dftF data 0 = none := by
      unfold analyze_core
      rw [if_pos rfl]
    rw [band_psd_fs_zero dftF data 995 1005 (by norm_num)]
    simp [analyze_data, hc]
  · by_cases hN : (evenize data).length = 0
    · have hc : analyze_core dftF data fs = none := by
        unfold analyze_core
        rw [if_neg hfs, if_pos hN]
      rw [band_psd_len_zero dftF data fs 995 1005 hN]
      simp [analyze_data, hc]
    · rw [show analyze_data dftF data fs = (analyze_core dftF data fs).getD false
          from rfl]
      rw [analyze_core_eq dftF data fs hfs hN]
      rcases hmax : (band_psd dftF data fs 995 1005).max? with _ | peak
      · simp
      · rcases hmed : np_median (band_psd dftF data fs 950 1050) with _ | bkg
        · simp [hmed]
        · simp [hmed, gt_iff_lt]

/-- A length-preserving placeholder transform used to instantiate the
analyzer theorem on a concrete input: a single tone in bin 40, which
at `fs = 2100` and `N = 86` sits at exactly 1000 Hz on the
`linspace 0 1050 43` grid (25 Hz per bin). -/
def dft_sample : List ℚ → List CpxQ :=
  fun xs => (List.range xs.length).map fun i => if i = 40 then ⟨86, 0⟩ else ⟨0, 0⟩

/-- An 86-sample buffer (its content does not influence
`dft_sample`). -/
def data_sample : List ℚ := List.replicate 86 0

/-- Witness for C7 at a concrete tone: the transform is
length-preserving, the analyzer detects the tone (peak 4 against a
zero median background), and the characterisation applies. -/
theorem C7_witness :
    (dft_sample (evenize data_sample)).length = (evenize data_sample).length ∧
    analyze_data dft_sample data_sample 2100 = true ∧
    ((analyze_data dft_sample data_sample 2100 = true ↔
        ∃ peak bkg,
          (band_psd dft_sample data_sample 2100 995 1005).max? = some peak ∧
          np_median (band_psd dft_sample data_sample 2100 950 1050) = some bkg ∧
          peak > THRESHOLD * bkg) ∧
      (analyze_core dft_sample data_sample 2100 = none →
        analyze_data dft_sample data_sample 2100 = false)) :=
  ⟨by simp [dft_sample, data_sample, evenize],
   by norm_num [analyze_data, analyze_core, dft_sample, data_sample, evenize,
     linspace, np_median, sort_asc, insert_sorted, CpxQ.normSq, THRESHOLD,
     List.range_succ],
   C7_analyze_data dft_sample data_sample 2100
     (by simp [dft_sample, data_sample, evenize])⟩

end AudioTrigger
